import Mathlib

/-!
Shallow embedding of the claim validation pipeline of `app/ai/validator.py`
(class `ClaimValidator`), the richer of the two pipeline variants in the
repository and the one every claim cites.

Modelling conventions:
* Money and percentages are exact rationals (`ℚ`).  Python `round(x, 2)` is
  modelled by `round2` (round to the nearest cent); the half-way tie behaviour
  of binary floats is not modelled, no claim depends on it.
* The external reasoning oracle (`llm.invoke_with_json_async`) either returns a
  parsed JSON object or raises; each oracle call site therefore receives an
  `Option` of the parsed response, `none` standing for a raised exception
  (unreachable service, timeout, malformed JSON).  The same convention models
  the context retriever (`embeddings.similarity_search_async`).
* Oracle response structures carry the fields the call sites read, with the
  `.get` defaults of the call sites applied; `exclusion_id` is an `Option`
  because `validate` indexes it with `[...]`, which raises `KeyError` when the
  key is absent.
* `ValidationStep.data` (an arbitrary dict payload) and timestamps are not
  modelled; no claim mentions them.
* The result assembly of `validate` is checked against the pydantic models of
  `src/app/models/claim.py` where those classes exist (`FraudIndicator`,
  `ValidationStep`, `ClaimValidationResult`): a constructor raises a
  `ValidationError` when a required field (one with no default) is missing
  from the keyword arguments the caller passes.  The two classes named in
  validator.py's import but absent from that file are modelled from the spec
  as total conversions.
-/

/-- Python `round(x, 2)`: round to two decimal places, over exact rationals. -/
def round2 (q : ℚ) : ℚ := ((round (q * 100) : ℤ) : ℚ) / 100

/-- The claim fields the validator reads (`state["claim"]`). -/
structure ClaimInput where
  claim_id : String
  claimed_amount : ℚ
  incident_description : String
deriving DecidableEq

/-- Parsed JSON returned by the coverage-analysis oracle call, as read by
`_analyze_coverage` / `_calculate_payout` (missing keys already replaced by
the call sites' `.get` defaults: `False` / `0`). -/
structure CoverageResp where
  coverage_applies : Bool
  coverage_limit : ℚ
  deductible : ℚ
  copay_percentage : ℚ
deriving DecidableEq

/-- One entry of `exclusions_triggered` in the exclusion-analysis oracle
response.  `exclusion_id` is optional because the LLM may omit the key;
`validate` later indexes it with `e["exclusion_id"]`. -/
structure ExclusionEntry where
  exclusion_id : Option String
  exception_applies : Bool
deriving DecidableEq

/-- Parsed JSON returned by the exclusion-analysis oracle call. -/
structure ExclusionResp where
  exclusions_triggered : List ExclusionEntry
  claim_excluded : Bool
deriving DecidableEq

/-- Parsed JSON returned by the recommendation oracle call, as read by
`_generate_recommendation` (missing keys already replaced by the `.get`
defaults `"review"` / `0.5` / `""`). -/
structure RecommendationResp where
  recommendation : String
  confidence : ℚ
  reasoning_summary : String
deriving DecidableEq

/-- One behaviour of the two external collaborators for one validation run:
for each of the four external calls, `some` parsed result or `none` for a
raised exception. -/
structure OracleBehavior where
  retrieval : Option (List String)
  coverage : Option CoverageResp
  exclusion : Option ExclusionResp
  synthesis : Option RecommendationResp
deriving DecidableEq

/-- The failure value `{"coverage_applies": False, "error": ...}` stored by
`_analyze_coverage` on exception, viewed through the `.get` defaults of its
readers (missing numeric keys read as `0`). -/
def covFail : CoverageResp := { coverage_applies := false, coverage_limit := 0, deductible := 0, copay_percentage := 0 }

/-- The failure value `{"claim_excluded": False, "error": ...}` stored by
`_analyze_exclusions` on exception (missing `exclusions_triggered` reads
as `[]`). -/
def exclFail : ExclusionResp := { exclusions_triggered := [], claim_excluded := false }

/-- Fraud indicator dict built by `_detect_fraud`. -/
structure FraudIndicator where
  indicator_type : String
  severity : String
  description : String
  score_contribution : ℚ
deriving DecidableEq

/-- Fraud analysis dict built by `_detect_fraud`. -/
structure FraudAnalysis where
  fraud_score : ℚ
  risk_level : String
  requires_investigation : Bool
  indicators : List FraudIndicator
deriving DecidableEq

/-- Payout calculation dict built by `_calculate_payout`.  The success-branch
`breakdown` sub-dict repeats fields already present here and is not
modelled separately. -/
structure PayoutCalculation where
  claimed_amount : ℚ
  eligible_amount : ℚ
  coverage_limit : ℚ
  deductible : ℚ
  copay_amount : ℚ
  recommended_payout : ℚ
  notes : List String
deriving DecidableEq

/-- One audit-trail entry appended by `_add_step` (payload and timestamp
omitted). -/
structure ValidationStep where
  step_name : String
  status : String
  details : String
deriving DecidableEq

/-- The `ValidationState` TypedDict threaded through the LangGraph nodes. -/
structure ValidationState where
  claim : ClaimInput
  relevant_clauses : List String
  coverage_analysis : Option CoverageResp
  exclusion_analysis : Option ExclusionResp
  fraud_analysis : Option FraudAnalysis
  payout_calculation : Option PayoutCalculation
  steps : List ValidationStep
  is_valid : Bool
  recommendation : String
  confidence : ℚ
  reasoning : String
  errors : List String
deriving DecidableEq

/-- The `initial_state` built at the top of `validate`. -/
def initState (claim : ClaimInput) : ValidationState where
  claim := claim
  relevant_clauses := []
  coverage_analysis := none
  exclusion_analysis := none
  fraud_analysis := none
  payout_calculation := none
  steps := []
  is_valid := false
  recommendation := "pending"
  confidence := 0
  reasoning := ""
  errors := []

/-- `ClaimValidator._add_step`: append one audit step. -/
def addStep (s : ValidationState) (step_name status details : String) : ValidationState :=
  { s with steps := s.steps ++ [{ step_name := step_name, status := status, details := details }] }

/-- `ClaimValidator._retrieve_context`: on success a `passed` step and the
retrieved clauses, on failure a `warning` step and an empty evidence set. -/
def retrieveContext (o : Option (List String)) (s : ValidationState) : ValidationState :=
  match o with
  | some results =>
      let s := addStep s "retrieve_context" "passed"
        ("Retrieved " ++ toString results.length ++ " relevant clauses")
      { s with relevant_clauses := results }
  | none =>
      let s := addStep s "retrieve_context" "warning" "Limited context retrieved"
      { s with relevant_clauses := [], errors := s.errors ++ ["retrieval error"] }

/-- `ClaimValidator._analyze_coverage`: store the oracle response verbatim with
a `passed`/`failed` step, or the conservative failure default with an
`error` step. -/
def analyzeCoverage (o : Option CoverageResp) (s : ValidationState) : ValidationState :=
  match o with
  | some result =>
      let s := addStep s "coverage_analysis"
        (if result.coverage_applies then "passed" else "failed")
        (if result.coverage_applies then "Coverage applies" else "Coverage does not apply")
      { s with coverage_analysis := some result }
  | none =>
      let s := addStep s "coverage_analysis" "error" "oracle call failed"
      { s with coverage_analysis := some covFail, errors := s.errors ++ ["coverage error"] }

/-- `ClaimValidator._analyze_exclusions`: store the oracle response verbatim
(including its `claim_excluded` field) with a `passed`/`failed` step, or
the failure default (`claim_excluded = false`) with an `error` step. -/
def analyzeExclusions (o : Option ExclusionResp) (s : ValidationState) : ValidationState :=
  match o with
  | some result =>
      let s := addStep s "exclusion_analysis"
        (if result.claim_excluded then "failed" else "passed")
        (if result.exclusions_triggered.isEmpty then "No exclusions apply"
         else toString result.exclusions_triggered.length ++ " exclusions triggered")
      { s with exclusion_analysis := some result }
  | none =>
      let s := addStep s "exclusion_analysis" "error" "oracle call failed"
      { s with exclusion_analysis := some exclFail, errors := s.errors ++ ["exclusion error"] }

/-- Sum of the contributions of the triggered fraud rules, before clamping
(the running `fraud_score` variable of `_detect_fraud`). -/
def rawFraudScore (claim : ClaimInput) : ℚ :=
  (if claim.claimed_amount > 50000 then 2/10 else 0) +
  (if claim.incident_description.length < 50 then 1/10 else 0)

/-- The indicator list built by the two implemented fraud rules. -/
def fraudIndicators (claim : ClaimInput) : List FraudIndicator :=
  (if claim.claimed_amount > 50000 then
    [{ indicator_type := "amount_anomaly", severity := "medium",
       description := "High value claim", score_contribution := 2/10 }]
   else []) ++
  (if claim.incident_description.length < 50 then
    [{ indicator_type := "inconsistent_info", severity := "low",
       description := "Vague incident description", score_contribution := 1/10 }]
   else [])

/-- Risk level thresholds of `_detect_fraud`. -/
def riskLevel (score : ℚ) : String :=
  if score ≥ 7/10 then "high" else if score ≥ 5/10 then "medium" else "low"

/-- The `fraud_analysis` dict built by `_detect_fraud` (pure function of the
claim; the `policy` variable read there is unused). -/
def detectFraudAnalysis (claim : ClaimInput) : FraudAnalysis where
  fraud_score := min (rawFraudScore claim) 1
  risk_level := riskLevel (rawFraudScore claim)
  requires_investigation := decide (rawFraudScore claim ≥ 5/10)
  indicators := fraudIndicators claim

/-- `ClaimValidator._detect_fraud` as a graph node: always one step, status
`warning` iff the raw score reaches 0.5, never an error path. -/
def detectFraudNode (s : ValidationState) : ValidationState :=
  let s := addStep s "fraud_detection"
    (if rawFraudScore s.claim ≥ 5/10 then "warning" else "passed")
    "Fraud score computed"
  { s with fraud_analysis := some (detectFraudAnalysis s.claim) }

/-- `ClaimValidator._calculate_payout`, core computation.  Note the Python
truthiness test `if copay_pct` on the copay percentage, modelled as
`≠ 0`, and that the stored `copay_amount` / `recommended_payout` fields
are rounded to two decimals. -/
def calculatePayout (claimed_amount : ℚ) (cov : CoverageResp) (excl : ExclusionResp) :
    PayoutCalculation :=
  if !cov.coverage_applies || excl.claim_excluded then
    { claimed_amount := claimed_amount, eligible_amount := 0, coverage_limit := 0,
      deductible := 0, copay_amount := 0, recommended_payout := 0,
      notes := ["Claim not eligible for payout"] }
  else
    let coverage_limit := cov.coverage_limit
    let deductible := cov.deductible
    let copay_pct := cov.copay_percentage
    let eligible := if coverage_limit > 0 then min claimed_amount coverage_limit else claimed_amount
    let after_deductible := max 0 (eligible - deductible)
    let copay_amount := if copay_pct ≠ 0 then after_deductible * (copay_pct / 100) else 0
    let recommended_payout := after_deductible - copay_amount
    { claimed_amount := claimed_amount, eligible_amount := eligible,
      coverage_limit := coverage_limit, deductible := deductible,
      copay_amount := round2 copay_amount, recommended_payout := round2 recommended_payout,
      notes := [] }

/-- `ClaimValidator._calculate_payout` as a graph node: reads the stored
analyses through the `.get` defaults, always appends a `passed` step. -/
def calculatePayoutNode (s : ValidationState) : ValidationState :=
  let pc := calculatePayout s.claim.claimed_amount
    (s.coverage_analysis.getD covFail) (s.exclusion_analysis.getD exclFail)
  let s := addStep s "payout_calculation" "passed" "Recommended payout computed"
  { s with payout_calculation := some pc }

/-- `ClaimValidator._generate_recommendation`: on oracle success, take the
oracle verdict and compute `is_valid`; on oracle failure, the deterministic
fallback decision table with `is_valid` hard-coded to `false`, confidence
0.5 and the fixed fallback reasoning marker.  Neither branch appends a
`ValidationStep`. -/
def generateRecommendation (o : Option RecommendationResp) (s : ValidationState) :
    ValidationState :=
  let covA := s.coverage_analysis.getD covFail
  let exclA := s.exclusion_analysis.getD exclFail
  let fraudA := (s.fraud_analysis.map FraudAnalysis.requires_investigation).getD false
  match o with
  | some result =>
      { s with is_valid := covA.coverage_applies && !exclA.claim_excluded,
               recommendation := result.recommendation,
               confidence := result.confidence,
               reasoning := result.reasoning_summary }
  | none =>
      let rec0 : String :=
        if fraudA then "investigate"
        else if !covA.coverage_applies then "deny"
        else if exclA.claim_excluded then "deny"
        else "review"
      { s with is_valid := false, recommendation := rec0, confidence := 1/2,
               reasoning := "Automated fallback decision",
               errors := s.errors ++ ["synthesis error"] }

/-- The compiled LangGraph workflow: the six nodes run unconditionally in the
fixed linear order. -/
def runPipeline (claim : ClaimInput) (o : OracleBehavior) : ValidationState :=
  generateRecommendation o.synthesis
    (calculatePayoutNode
      (detectFraudNode
        (analyzeExclusions o.exclusion
          (analyzeCoverage o.coverage
            (retrieveContext o.retrieval (initState claim))))))

/-- Pydantic's missing-required-field check at model construction: the
required fields of the model that are absent from the supplied keys. -/
def pydanticMissing (required given : List String) : List String :=
  required.filter (fun k => !(given.contains k))

/-- Required fields (no default) of the checked-in `FraudIndicator` model,
`src/app/models/claim.py` lines 19-26. -/
def fraudIndicatorRequiredKeys : List String :=
  ["indicator_id", "indicator_type", "severity", "description"]

/-- Keys of every indicator dict `_detect_fraud` builds (validator.py lines
352-357 and 362-367); `indicator_id` is never among them. -/
def detectFraudIndicatorKeys : List String :=
  ["indicator_type", "severity", "description", "score_contribution"]

/-- Status of the step with the given name, if present. -/
def stepStatus (s : ValidationState) (name : String) : Option String :=
  (s.steps.find? (fun st => st.step_name == name)).map ValidationStep.status

/-- The recommended-payout formula exactly as the specification states it
(with the strict `copay_percentage > 0` guard), for comparison with the
source's `calculatePayout`. -/
def specRecommendedPayout (claimed_amount coverage_limit deductible copay_pct : ℚ) : ℚ :=
  let eligible := if coverage_limit > 0 then min claimed_amount coverage_limit else claimed_amount
  let after_deductible := max 0 (eligible - deductible)
  let copay_amount := if copay_pct > 0 then after_deductible * (copay_pct / 100) else 0
  round2 (after_deductible - copay_amount)

/-- The recommended-payout formula amended to the source's behaviour: Python's
truthiness test `if copay_pct` compares against zero, so the guard is
`copay_percentage ≠ 0` rather than the specification's `> 0`. -/
def specRecommendedPayoutTruthy (claimed_amount coverage_limit deductible copay_pct : ℚ) : ℚ :=
  let eligible := if coverage_limit > 0 then min claimed_amount coverage_limit else claimed_amount
  let after_deductible := max 0 (eligible - deductible)
  let copay_amount := if copay_pct ≠ 0 then after_deductible * (copay_pct / 100) else 0
  round2 (after_deductible - copay_amount)

/-- A sample claim used for concrete runs: modest amount, vague (10
character) incident description. -/
def claim0 : ClaimInput where
  claim_id := "clm_1"
  claimed_amount := 100
  incident_description := "short desc"

/-- Coverage terms of the specification's payout scenario. -/
def covScenario : CoverageResp where
  coverage_applies := true
  coverage_limit := 50000
  deductible := 500
  copay_percentage := 20

/-- An exclusion-analysis response with no triggered exclusions. -/
def exclNone : ExclusionResp where
  exclusions_triggered := []
  claim_excluded := false

/-- An oracle behaviour whose recommendation call fails while everything
else succeeds, with coverage applying and nothing excluded. -/
def oracleFallback : OracleBehavior where
  retrieval := some []
  coverage := some { coverage_applies := true, coverage_limit := 0, deductible := 0, copay_percentage := 0 }
  exclusion := some exclNone
  synthesis := none

/-- An oracle behaviour where every external call succeeds. -/
def oracleHappy : OracleBehavior where
  retrieval := some ["clause a"]
  coverage := some covScenario
  exclusion := some exclNone
  synthesis := some { recommendation := "approve", confidence := 9/10, reasoning_summary := "ok" }

/-- An oracle behaviour where every external call fails. -/
def oracleAllFail : OracleBehavior where
  retrieval := none
  coverage := none
  exclusion := none
  synthesis := none

/-- An exclusion-analysis response reporting an entry whose exception does
not apply while nevertheless reporting `claim_excluded = false`. -/
def exclInconsistent : ExclusionResp where
  exclusions_triggered := [{ exclusion_id := some "excl_1", exception_applies := false }]
  claim_excluded := false

/-- An oracle behaviour whose exclusion response is `exclInconsistent`. -/
def oracleInconsistent : OracleBehavior where
  retrieval := some []
  coverage := some covFail
  exclusion := some exclInconsistent
  synthesis := none

section PipelineLemmas

lemma round_rat_mono {x y : ℚ} (h : x ≤ y) : round x ≤ round y := by
  rw [round_eq, round_eq]
  exact Int.floor_mono (by linarith)

lemma round2_nonneg {q : ℚ} (h : 0 ≤ q) : 0 ≤ round2 q := by
  unfold round2
  have h0 : round (0 : ℚ) ≤ round (q * 100) := round_rat_mono (by nlinarith)
  rw [round_zero] at h0
  have : (0 : ℚ) ≤ ((round (q * 100) : ℤ) : ℚ) := by exact_mod_cast h0
  linarith

lemma round2_le_cents {q : ℚ} {k : ℕ} (h : q ≤ (k : ℚ) / 100) : round2 q ≤ (k : ℚ) / 100 := by
  unfold round2
  have h1 : q * 100 ≤ (k : ℚ) := by linarith
  have h2 : round (q * 100) ≤ round ((k : ℚ)) := round_rat_mono h1
  rw [round_natCast] at h2
  have : ((round (q * 100) : ℤ) : ℚ) ≤ (k : ℚ) := by exact_mod_cast h2
  linarith

lemma runPipeline_coverage_analysis (c : ClaimInput) (o : OracleBehavior) :
    (runPipeline c o).coverage_analysis = some (o.coverage.getD covFail) := by
  obtain ⟨ret, cov, excl, syn⟩ := o
  cases ret <;> cases cov <;> cases excl <;> cases syn <;>
    simp [runPipeline, generateRecommendation, calculatePayoutNode, detectFraudNode,
      analyzeExclusions, analyzeCoverage, retrieveContext, initState, addStep]

lemma runPipeline_exclusion_analysis (c : ClaimInput) (o : OracleBehavior) :
    (runPipeline c o).exclusion_analysis = some (o.exclusion.getD exclFail) := by
  obtain ⟨ret, cov, excl, syn⟩ := o
  cases ret <;> cases cov <;> cases excl <;> cases syn <;>
    simp [runPipeline, generateRecommendation, calculatePayoutNode, detectFraudNode,
      analyzeExclusions, analyzeCoverage, retrieveContext, initState, addStep]

lemma runPipeline_fraud_analysis (c : ClaimInput) (o : OracleBehavior) :
    (runPipeline c o).fraud_analysis = some (detectFraudAnalysis c) := by
  obtain ⟨ret, cov, excl, syn⟩ := o
  cases ret <;> cases cov <;> cases excl <;> cases syn <;>
    simp [runPipeline, generateRecommendation, calculatePayoutNode, detectFraudNode,
      analyzeExclusions, analyzeCoverage, retrieveContext, initState, addStep]

lemma runPipeline_payout_calculation (c : ClaimInput) (o : OracleBehavior) :
    (runPipeline c o).payout_calculation =
      some (calculatePayout c.claimed_amount (o.coverage.getD covFail) (o.exclusion.getD exclFail)) := by
  obtain ⟨ret, cov, excl, syn⟩ := o
  cases ret <;> cases cov <;> cases excl <;> cases syn <;>
    simp [runPipeline, generateRecommendation, calculatePayoutNode, detectFraudNode,
      analyzeExclusions, analyzeCoverage, retrieveContext, initState, addStep]

lemma runPipeline_step_names (c : ClaimInput) (o : OracleBehavior) :
    (runPipeline c o).steps.map ValidationStep.step_name =
      ["retrieve_context", "coverage_analysis", "exclusion_analysis",
       "fraud_detection", "payout_calculation"] := by
  obtain ⟨ret, cov, excl, syn⟩ := o
  cases ret <;> cases cov <;> cases excl <;> cases syn <;>
    simp [runPipeline, generateRecommendation, calculatePayoutNode, detectFraudNode,
      analyzeExclusions, analyzeCoverage, retrieveContext, initState, addStep]

lemma runPipeline_is_valid (c : ClaimInput) (o : OracleBehavior) :
    (runPipeline c o).is_valid =
      (match o.synthesis with
       | some _ => (o.coverage.getD covFail).coverage_applies &&
           !(o.exclusion.getD exclFail).claim_excluded
       | none => false) := by
  obtain ⟨ret, cov, excl, syn⟩ := o
  cases ret <;> cases cov <;> cases excl <;> cases syn <;>
    simp [runPipeline, generateRecommendation, calculatePayoutNode, detectFraudNode,
      analyzeExclusions, analyzeCoverage, retrieveContext, initState, addStep]

lemma runPipeline_recommendation (c : ClaimInput) (o : OracleBehavior) :
    (runPipeline c o).recommendation =
      (match o.synthesis with
       | some r => r.recommendation
       | none =>
           if (detectFraudAnalysis c).requires_investigation then "investigate"
           else if !(o.coverage.getD covFail).coverage_applies then "deny"
           else if (o.exclusion.getD exclFail).claim_excluded then "deny"
           else "review") := by
  obtain ⟨ret, cov, excl, syn⟩ := o
  cases ret <;> cases cov <;> cases excl <;> cases syn <;>
    simp [runPipeline, generateRecommendation, calculatePayoutNode, detectFraudNode,
      analyzeExclusions, analyzeCoverage, retrieveContext, initState, addStep,
      detectFraudAnalysis]

lemma runPipeline_confidence_fallback (c : ClaimInput) (o : OracleBehavior)
    (h : o.synthesis = none) : (runPipeline c o).confidence = 1/2 := by
  obtain ⟨ret, cov, excl, syn⟩ := o
  cases syn
  · cases ret <;> cases cov <;> cases excl <;>
      simp [runPipeline, generateRecommendation, calculatePayoutNode, detectFraudNode,
        analyzeExclusions, analyzeCoverage, retrieveContext, initState, addStep]
  · simp at h

lemma runPipeline_reasoning_fallback (c : ClaimInput) (o : OracleBehavior)
    (h : o.synthesis = none) : (runPipeline c o).reasoning = "Automated fallback decision" := by
  obtain ⟨ret, cov, excl, syn⟩ := o
  cases syn
  · cases ret <;> cases cov <;> cases excl <;>
      simp [runPipeline, generateRecommendation, calculatePayoutNode, detectFraudNode,
        analyzeExclusions, analyzeCoverage, retrieveContext, initState, addStep]
  · simp at h

lemma runPipeline_stepStatus_coverage (c : ClaimInput) (o : OracleBehavior) :
    stepStatus (runPipeline c o) "coverage_analysis" =
      some (match o.coverage with
            | some r => if r.coverage_applies then "passed" else "failed"
            | none => "error") := by
  obtain ⟨ret, cov, excl, syn⟩ := o
  cases ret <;> cases cov <;> cases excl <;> cases syn <;>
    simp [stepStatus, runPipeline, generateRecommendation, calculatePayoutNode, detectFraudNode,
      analyzeExclusions, analyzeCoverage, retrieveContext, initState, addStep]

lemma runPipeline_stepStatus_exclusion (c : ClaimInput) (o : OracleBehavior) :
    stepStatus (runPipeline c o) "exclusion_analysis" =
      some (match o.exclusion with
            | some r => if r.claim_excluded then "failed" else "passed"
            | none => "error") := by
  obtain ⟨ret, cov, excl, syn⟩ := o
  cases ret <;> cases cov <;> cases excl <;> cases syn <;>
    simp [stepStatus, runPipeline, generateRecommendation, calculatePayoutNode, detectFraudNode,
      analyzeExclusions, analyzeCoverage, retrieveContext, initState, addStep]

lemma runPipeline_stepStatus_fraud (c : ClaimInput) (o : OracleBehavior) :
    stepStatus (runPipeline c o) "fraud_detection" =
      some (if rawFraudScore c ≥ 5/10 then "warning" else "passed") := by
  obtain ⟨ret, cov, excl, syn⟩ := o
  cases ret <;> cases cov <;> cases excl <;> cases syn <;>
    simp [stepStatus, runPipeline, generateRecommendation, calculatePayoutNode, detectFraudNode,
      analyzeExclusions, analyzeCoverage, retrieveContext, initState, addStep]

lemma runPipeline_stepStatus_payout (c : ClaimInput) (o : OracleBehavior) :
    stepStatus (runPipeline c o) "payout_calculation" = some "passed" := by
  obtain ⟨ret, cov, excl, syn⟩ := o
  cases ret <;> cases cov <;> cases excl <;> cases syn <;>
    simp [stepStatus, runPipeline, generateRecommendation, calculatePayoutNode, detectFraudNode,
      analyzeExclusions, analyzeCoverage, retrieveContext, initState, addStep]

lemma rawFraudScore_cases (c : ClaimInput) :
    rawFraudScore c = 0 ∨ rawFraudScore c = 1/10 ∨
    rawFraudScore c = 2/10 ∨ rawFraudScore c = 3/10 := by
  unfold rawFraudScore
  split_ifs <;> norm_num

lemma rawFraudScore_lt_half (c : ClaimInput) : rawFraudScore c < 1/2 := by
  rcases rawFraudScore_cases c with h | h | h | h <;> rw [h] <;> norm_num

lemma rawFraudScore_nonneg (c : ClaimInput) : 0 ≤ rawFraudScore c := by
  rcases rawFraudScore_cases c with h | h | h | h <;> rw [h] <;> norm_num

lemma detectFraudAnalysis_fraud_score (c : ClaimInput) :
    (detectFraudAnalysis c).fraud_score = rawFraudScore c := by
  have h := rawFraudScore_lt_half c
  simp only [detectFraudAnalysis]
  exact min_eq_left (by linarith)

lemma fraudIndicators_sum (c : ClaimInput) :
    ((fraudIndicators c).map FraudIndicator.score_contribution).sum = rawFraudScore c := by
  unfold fraudIndicators rawFraudScore
  split_ifs <;> simp

lemma fraudIndicator_missing_eval :
    pydanticMissing fraudIndicatorRequiredKeys detectFraudIndicatorKeys = ["indicator_id"] := by
  rfl

end PipelineLemmas

/-- Claim C1, counterexample: the payout invariant fails for oracle-returned
coverage terms the code never sanitises.  With `copay_percentage = 200` the
recommended payout is negative, and with a claimed amount of 10.006 (not a
whole number of cents) rounding pushes the payout above the claimed amount. -/
theorem C1_counterexample :
    (calculatePayout 100 { coverage_applies := true, coverage_limit := 0, deductible := 0, copay_percentage := 200 } exclNone).recommended_payout < 0 ∧
    (calculatePayout (5003/500) { coverage_applies := true, coverage_limit := 0, deductible := 0, copay_percentage := 0 } exclNone).recommended_payout > 5003/500 := by
  constructor <;> norm_num [calculatePayout, exclNone, round2, round_eq]

/-- Claim C1 as amended: for a claimed amount that is a nonnegative whole
number of cents and well-formed coverage terms (`deductible ≥ 0`,
`0 ≤ copay_percentage ≤ 100`), the assembled payout satisfies
`0 ≤ recommended_payout ≤ claimed_amount`, and the payout is 0 whenever
coverage does not apply or the claim is excluded. -/
theorem C1_payout_invariant (claimed : ℚ) (cov : CoverageResp) (excl : ExclusionResp)
    (hcents : ∃ k : ℕ, claimed = (k : ℚ) / 100)
    (hded : 0 ≤ cov.deductible) (hcp0 : 0 ≤ cov.copay_percentage)
    (hcp1 : cov.copay_percentage ≤ 100) :
    0 ≤ (calculatePayout claimed cov excl).recommended_payout ∧
    (calculatePayout claimed cov excl).recommended_payout ≤ claimed ∧
    ((cov.coverage_applies = false ∨ excl.claim_excluded = true) →
      (calculatePayout claimed cov excl).recommended_payout = 0) := by
  obtain ⟨k, rfl⟩ := hcents
  have hclaimed : (0:ℚ) ≤ (k:ℚ)/100 := by positivity
  cases hb : cov.coverage_applies with
  | false =>
      simp only [calculatePayout, hb, Bool.not_false, Bool.true_or, if_true]
      exact ⟨le_refl 0, hclaimed, fun _ => trivial⟩
  | true =>
      cases he : excl.claim_excluded with
      | true =>
          simp only [calculatePayout, hb, he, Bool.not_true, Bool.false_or, if_true]
          exact ⟨le_refl 0, hclaimed, fun _ => trivial⟩
      | false =>
          simp only [calculatePayout, hb, he, Bool.not_true, Bool.false_or, Bool.false_eq_true, if_false]
          set eligible : ℚ := if cov.coverage_limit > 0 then min ((k:ℚ)/100) cov.coverage_limit else (k:ℚ)/100 with helig
          set ad : ℚ := max 0 (eligible - cov.deductible) with had
          set cp : ℚ := if cov.copay_percentage ≠ 0 then ad * (cov.copay_percentage/100) else 0 with hcp
          have helig_le : eligible ≤ (k:ℚ)/100 := by
            rw [helig]; split_ifs with h
            exacts [min_le_left _ _, le_refl _]
          have helig_0 : 0 ≤ eligible := by
            rw [helig]; split_ifs with h
            exacts [le_min hclaimed h.le, hclaimed]
          have had0 : 0 ≤ ad := le_max_left _ _
          have had_le : ad ≤ (k:ℚ)/100 := by
            rw [had]; exact max_le hclaimed (by linarith)
          have hcpnn : 0 ≤ cp := by
            rw [hcp]; split_ifs with h
            · exact mul_nonneg had0 (div_nonneg hcp0 (by norm_num))
            · exact le_refl 0
          have hcp_le : cp ≤ ad := by
            rw [hcp]; split_ifs with h
            · calc ad * (cov.copay_percentage/100) ≤ ad * 1 :=
                    mul_le_mul_of_nonneg_left (by linarith) had0
                _ = ad := mul_one ad
            · exact had0
          refine ⟨?_, ?_, ?_⟩
          · exact round2_nonneg (by linarith)
          · exact round2_le_cents (by linarith)
          · intro h
            rcases h with h | h <;> simp at h

/-- Witness for C1: the amended invariant instantiated at the specification's
scenario (claimed 15000, limit 50000, deductible 500, copay 20). -/
theorem C1_payout_invariant_witness :
    (∃ k : ℕ, (15000:ℚ) = (k : ℚ) / 100) ∧
    0 ≤ (calculatePayout 15000 covScenario exclNone).recommended_payout ∧
    (calculatePayout 15000 covScenario exclNone).recommended_payout ≤ 15000 :=
  ⟨⟨1500000, by norm_num⟩,
   (C1_payout_invariant 15000 covScenario exclNone ⟨1500000, by norm_num⟩
      (by norm_num [covScenario]) (by norm_num [covScenario]) (by norm_num [covScenario])).1,
   (C1_payout_invariant 15000 covScenario exclNone ⟨1500000, by norm_num⟩
      (by norm_num [covScenario]) (by norm_num [covScenario]) (by norm_num [covScenario])).2.1⟩

/-- Claim C2, counterexample: the claim's formula guards the copay with
`copay_percentage > 0`, but the source uses Python truthiness (`if copay_pct`),
so at `copay_percentage = -10` the code returns 110 where the claimed formula
yields 100. -/
theorem C2_counterexample :
    (calculatePayout 100 { coverage_applies := true, coverage_limit := 0, deductible := 0, copay_percentage := -10 } exclNone).recommended_payout = 110 ∧
    specRecommendedPayout 100 0 0 (-10) = 100 ∧
    (110 : ℚ) ≠ 100 := by
  refine ⟨?_, ?_, by norm_num⟩ <;>
    norm_num [calculatePayout, specRecommendedPayout, exclNone, round2, round_eq]

/-- Claim C2 as amended: when coverage applies and the claim is not
excluded, `_calculate_payout` computes exactly the stated eligible,
deductible, copay and rounding formulas with the copay guard
`copay_percentage ≠ 0` (Python truthiness); for nonnegative copay
percentages the amended guard agrees with the specification's `> 0`. -/
theorem C2_payout_formula (claimed : ℚ) (cov : CoverageResp) (excl : ExclusionResp)
    (happ : cov.coverage_applies = true) (hexc : excl.claim_excluded = false) :
    (calculatePayout claimed cov excl).recommended_payout =
      specRecommendedPayoutTruthy claimed cov.coverage_limit cov.deductible cov.copay_percentage ∧
    (calculatePayout claimed cov excl).eligible_amount =
      (if cov.coverage_limit > 0 then min claimed cov.coverage_limit else claimed) ∧
    (calculatePayout claimed cov excl).copay_amount =
      round2 (if cov.copay_percentage ≠ 0 then
        (max 0 ((if cov.coverage_limit > 0 then min claimed cov.coverage_limit else claimed) - cov.deductible)) * (cov.copay_percentage / 100)
      else 0) ∧
    (0 ≤ cov.copay_percentage →
      specRecommendedPayoutTruthy claimed cov.coverage_limit cov.deductible cov.copay_percentage =
        specRecommendedPayout claimed cov.coverage_limit cov.deductible cov.copay_percentage) := by
  refine ⟨?_, ?_, ?_, ?_⟩
  · simp only [calculatePayout, specRecommendedPayoutTruthy, happ, hexc, Bool.not_true,
      Bool.false_or, Bool.false_eq_true, if_false]
  · simp only [calculatePayout, happ, hexc, Bool.not_true, Bool.false_or, Bool.false_eq_true, if_false]
  · simp only [calculatePayout, happ, hexc, Bool.not_true, Bool.false_or, Bool.false_eq_true, if_false]
  · intro hp
    simp only [specRecommendedPayoutTruthy, specRecommendedPayout]
    rcases eq_or_lt_of_le hp with h | h
    · rw [← h]; norm_num
    · rw [if_pos (ne_of_gt h), if_pos h]

/-- Witness for C2: the specification scenario — claimed 15000, limit 50000,
deductible 500, copay 20% — yields eligible 15000, copay 2900, payout
11600.00. -/
theorem C2_payout_formula_witness :
    (calculatePayout 15000 covScenario exclNone).eligible_amount = 15000 ∧
    (calculatePayout 15000 covScenario exclNone).copay_amount = 2900 ∧
    (calculatePayout 15000 covScenario exclNone).recommended_payout = 11600 := by
  have h := C2_payout_formula 15000 covScenario exclNone rfl rfl
  refine ⟨?_, ?_, ?_⟩
  · rw [h.2.1]; norm_num [covScenario, min_def]
  · rw [h.2.2.1]; norm_num [covScenario, min_def, max_def, round2, round_eq]
  · rw [h.1]; norm_num [covScenario, specRecommendedPayoutTruthy, min_def, max_def, round2, round_eq]

/-- Claim C3: the fraud detector is a pure function of the claim evaluating
exactly the two implemented rules (amount above 50000 contributes 0.2 with
severity medium, description shorter than 50 characters contributes 0.1 with
severity low); the returned score is the clamped sum of the triggered
contributions, risk level and the investigation flag follow the fixed
thresholds on that score, a fraud analysis is produced on every pipeline run,
and the 60000/10-character scenario scores 0.3 without requiring
investigation. -/
theorem C3_fraud_detector (claim : ClaimInput) (o : OracleBehavior) :
    (detectFraudAnalysis claim).indicators =
      (if claim.claimed_amount > 50000 then
        [{ indicator_type := "amount_anomaly", severity := "medium",
           description := "High value claim", score_contribution := 2/10 }] else []) ++
      (if claim.incident_description.length < 50 then
        [{ indicator_type := "inconsistent_info", severity := "low",
           description := "Vague incident description", score_contribution := 1/10 }] else []) ∧
    (detectFraudAnalysis claim).fraud_score =
      min (max (((detectFraudAnalysis claim).indicators.map FraudIndicator.score_contribution).sum) 0) 1 ∧
    (detectFraudAnalysis claim).risk_level =
      (if (detectFraudAnalysis claim).fraud_score ≥ 7/10 then "high"
       else if (detectFraudAnalysis claim).fraud_score ≥ 5/10 then "medium" else "low") ∧
    (detectFraudAnalysis claim).requires_investigation =
      decide ((detectFraudAnalysis claim).fraud_score ≥ 5/10) ∧
    (runPipeline claim o).fraud_analysis = some (detectFraudAnalysis claim) ∧
    (detectFraudAnalysis { claim_id := "c", claimed_amount := 60000, incident_description := "short desc" }).fraud_score = 3/10 ∧
    (detectFraudAnalysis { claim_id := "c", claimed_amount := 60000, incident_description := "short desc" }).requires_investigation = false := by
  have hfs := detectFraudAnalysis_fraud_score claim
  have hd : ("short desc" : String).length = 10 := by decide
  refine ⟨rfl, ?_, ?_, ?_, runPipeline_fraud_analysis claim o, ?_, ?_⟩
  · show min (rawFraudScore claim) 1 = _
    rw [show (detectFraudAnalysis claim).indicators = fraudIndicators claim from rfl,
      fraudIndicators_sum, max_eq_left (rawFraudScore_nonneg claim)]
  · rw [hfs]
    rfl
  · rw [hfs]
    rfl
  · rw [detectFraudAnalysis_fraud_score]
    norm_num [rawFraudScore, hd]
  · simp only [detectFraudAnalysis]
    rw [decide_eq_false]
    norm_num [rawFraudScore, hd]

/-- Claim C4: whenever the recommendation oracle call fails, the synthesizer
returns the deterministic fallback decision table (investigate if fraud
requires investigation, else deny if coverage does not apply, else deny if
excluded, else review) with confidence exactly 0.5 and the fixed reasoning
marker. -/
theorem C4_fallback_decision (claim : ClaimInput) (o : OracleBehavior)
    (hsyn : o.synthesis = none) :
    (runPipeline claim o).recommendation =
      (if (detectFraudAnalysis claim).requires_investigation then "investigate"
       else if !(o.coverage.getD covFail).coverage_applies then "deny"
       else if (o.exclusion.getD exclFail).claim_excluded then "deny"
       else "review") ∧
    (runPipeline claim o).confidence = 1/2 ∧
    (runPipeline claim o).reasoning = "Automated fallback decision" := by
  refine ⟨?_, runPipeline_confidence_fallback claim o hsyn,
    runPipeline_reasoning_fallback claim o hsyn⟩
  rw [runPipeline_recommendation, hsyn]

/-- Witness for C4: a concrete fallback run with coverage applying, nothing
excluded and no fraud flag yields review, confidence 0.5 and the marker. -/
theorem C4_fallback_decision_witness :
    (runPipeline claim0 oracleFallback).recommendation = "review" ∧
    (runPipeline claim0 oracleFallback).confidence = 1/2 ∧
    (runPipeline claim0 oracleFallback).reasoning = "Automated fallback decision" := by
  have h := C4_fallback_decision claim0 oracleFallback rfl
  have hd : ("short desc" : String).length = 10 := by decide
  refine ⟨?_, h.2.1, h.2.2⟩
  rw [h.1]
  norm_num [detectFraudAnalysis, rawFraudScore, claim0, oracleFallback, exclNone, covFail, exclFail, hd]

/-- Claim C5, counterexample: on a run where the recommendation oracle call
fails while coverage applies and nothing is excluded, the result has
`is_valid = false`, not `coverage_applies AND NOT claim_excluded = true` —
the fallback branch hard-codes `is_valid = false`. -/
theorem C5_counterexample :
    (runPipeline claim0 oracleFallback).is_valid = false ∧
    (runPipeline claim0 oracleFallback).coverage_analysis.map CoverageResp.coverage_applies = some true ∧
    (runPipeline claim0 oracleFallback).exclusion_analysis.map ExclusionResp.claim_excluded = some false := by
  refine ⟨?_, ?_, ?_⟩
  · rw [runPipeline_is_valid]; rfl
  · rw [runPipeline_coverage_analysis]; rfl
  · rw [runPipeline_exclusion_analysis]; rfl

/-- Claim C5 as amended: `is_valid = coverage_applies AND NOT claim_excluded`
holds exactly for the runs whose recommendation oracle call succeeds; when
that call fails the fallback returns `is_valid = false` regardless of the
coverage and exclusion outcomes. -/
theorem C5_is_valid (claim : ClaimInput) (o : OracleBehavior) :
    (∀ r, o.synthesis = some r →
      (runPipeline claim o).is_valid =
        ((o.coverage.getD covFail).coverage_applies &&
         !(o.exclusion.getD exclFail).claim_excluded)) ∧
    (o.synthesis = none → (runPipeline claim o).is_valid = false) := by
  constructor
  · intro r hr
    rw [runPipeline_is_valid, hr]
  · intro hr
    rw [runPipeline_is_valid, hr]

/-- Witness for C5: both branches of the amended statement at concrete
runs. -/
theorem C5_is_valid_witness :
    (runPipeline claim0 oracleHappy).is_valid = true ∧
    (runPipeline claim0 oracleFallback).is_valid = false := by
  constructor
  · have h := (C5_is_valid claim0 oracleHappy).1
      { recommendation := "approve", confidence := 9/10, reasoning_summary := "ok" } rfl
    rw [h]; rfl
  · exact (C5_is_valid claim0 oracleFallback).2 rfl

/-- Claim C6, counterexample: a fully successful run produces exactly five
validation steps — the synthesis stage appends none — so the step names are
not the six-stage sequence the claim states. -/
theorem C6_counterexample :
    (runPipeline claim0 oracleHappy).steps.map ValidationStep.step_name =
      ["retrieve_context", "coverage_analysis", "exclusion_analysis",
       "fraud_detection", "payout_calculation"] ∧
    (runPipeline claim0 oracleHappy).steps.length = 5 := by
  constructor
  · exact runPipeline_step_names claim0 oracleHappy
  · have h := congrArg List.length (runPipeline_step_names claim0 oracleHappy)
    simpa using h

/-- Claim C6 as amended: for every run, each of the first five stages
appends exactly one step whatever the stage outcome, the step names are the
fixed five-element sequence in execution order, and the synthesis stage
appends no step. -/
theorem C6_step_sequence (claim : ClaimInput) (o : OracleBehavior) :
    (runPipeline claim o).steps.map ValidationStep.step_name =
      ["retrieve_context", "coverage_analysis", "exclusion_analysis",
       "fraud_detection", "payout_calculation"] ∧
    (runPipeline claim o).steps.length = 5 := by
  constructor
  · exact runPipeline_step_names claim o
  · have h := congrArg List.length (runPipeline_step_names claim o)
    simpa using h

/-- Claim C7: a failed coverage-analysis oracle call yields
`coverage_applies = false` with an error step, a failed exclusion-analysis
call yields `claim_excluded = false` with an error step, and in both cases
the pipeline proceeds: the fraud and payout stages still run and record
their steps. -/
theorem C7_conservative_defaults (claim : ClaimInput) (o : OracleBehavior) :
    (o.coverage = none →
      (runPipeline claim o).coverage_analysis.map CoverageResp.coverage_applies = some false ∧
      stepStatus (runPipeline claim o) "coverage_analysis" = some "error") ∧
    (o.exclusion = none →
      (runPipeline claim o).exclusion_analysis.map ExclusionResp.claim_excluded = some false ∧
      stepStatus (runPipeline claim o) "exclusion_analysis" = some "error") ∧
    (runPipeline claim o).fraud_analysis.isSome = true ∧
    (runPipeline claim o).payout_calculation.isSome = true ∧
    stepStatus (runPipeline claim o) "payout_calculation" = some "passed" := by
  refine ⟨?_, ?_, ?_, ?_, runPipeline_stepStatus_payout claim o⟩
  · intro h
    constructor
    · rw [runPipeline_coverage_analysis, h]; rfl
    · rw [runPipeline_stepStatus_coverage, h]
  · intro h
    constructor
    · rw [runPipeline_exclusion_analysis, h]; rfl
    · rw [runPipeline_stepStatus_exclusion, h]
  · rw [runPipeline_fraud_analysis]; rfl
  · rw [runPipeline_payout_calculation]; rfl

/-- Witness for C7: the conservative defaults on a run where every external
call fails. -/
theorem C7_conservative_defaults_witness :
    (runPipeline claim0 oracleAllFail).coverage_analysis.map CoverageResp.coverage_applies = some false ∧
    stepStatus (runPipeline claim0 oracleAllFail) "coverage_analysis" = some "error" ∧
    (runPipeline claim0 oracleAllFail).exclusion_analysis.map ExclusionResp.claim_excluded = some false ∧
    stepStatus (runPipeline claim0 oracleAllFail) "exclusion_analysis" = some "error" ∧
    stepStatus (runPipeline claim0 oracleAllFail) "payout_calculation" = some "passed" := by
  have h := C7_conservative_defaults claim0 oracleAllFail
  exact ⟨(h.1 rfl).1, (h.1 rfl).2, (h.2.1 rfl).1, (h.2.1 rfl).2, h.2.2.2.2⟩

/-- Claim C9, counterexample: the oracle can report a triggered exclusion
whose exception does not apply while still reporting `claim_excluded =
false`, and the analyzer stores that verdict verbatim — refuting the claimed
iff between `claim_excluded` and the entries. -/
theorem C9_counterexample :
    (runPipeline claim0 oracleInconsistent).exclusion_analysis.map ExclusionResp.claim_excluded = some false ∧
    (runPipeline claim0 oracleInconsistent).exclusion_analysis.map
      (fun r => r.exclusions_triggered.any (fun e => !e.exception_applies)) = some true := by
  constructor
  · rw [runPipeline_exclusion_analysis]; rfl
  · rw [runPipeline_exclusion_analysis]; rfl

/-- Claim C9 as amended: `claim_excluded` is taken verbatim from the oracle
response (`false` when the call fails); the code never recomputes it from
the `exception_applies` flags of the returned entries. -/
theorem C9_claim_excluded_verbatim (claim : ClaimInput) (o : OracleBehavior) :
    (runPipeline claim o).exclusion_analysis = some (o.exclusion.getD exclFail) ∧
    exclFail.claim_excluded = false :=
  ⟨runPipeline_exclusion_analysis claim o, rfl⟩

/-- Claim C10: with the two implemented rules the fraud score is always one
of 0, 0.1, 0.2, 0.3 — strictly below the 0.5 investigation threshold — so no
claim ever requires investigation, the fraud step is always `passed`, and
the fallback decision table can never output `investigate`. -/
theorem C10_no_investigate (claim : ClaimInput) (o : OracleBehavior)
    (hsyn : o.synthesis = none) :
    ((detectFraudAnalysis claim).fraud_score = 0 ∨ (detectFraudAnalysis claim).fraud_score = 1/10 ∨
     (detectFraudAnalysis claim).fraud_score = 2/10 ∨ (detectFraudAnalysis claim).fraud_score = 3/10) ∧
    (detectFraudAnalysis claim).fraud_score < 1/2 ∧
    (detectFraudAnalysis claim).requires_investigation = false ∧
    stepStatus (runPipeline claim o) "fraud_detection" = some "passed" ∧
    (runPipeline claim o).recommendation ≠ "investigate" := by
  have hlt := rawFraudScore_lt_half claim
  have hfs := detectFraudAnalysis_fraud_score claim
  have hreq : (detectFraudAnalysis claim).requires_investigation = false := by
    simp only [detectFraudAnalysis]
    exact decide_eq_false (by linarith)
  refine ⟨?_, ?_, hreq, ?_, ?_⟩
  · rw [hfs]; exact rawFraudScore_cases claim
  · rw [hfs]; exact hlt
  · rw [runPipeline_stepStatus_fraud, if_neg (by linarith)]
  · rw [runPipeline_recommendation, hsyn]
    simp only [hreq, Bool.false_eq_true, if_false]
    split_ifs <;> decide

/-- Witness for C10: the fraud step status and fallback recommendation on a
concrete all-failure run. -/
theorem C10_no_investigate_witness :
    stepStatus (runPipeline claim0 oracleAllFail) "fraud_detection" = some "passed" ∧
    (runPipeline claim0 oracleAllFail).recommendation ≠ "investigate" := by
  have h := C10_no_investigate claim0 oracleAllFail rfl
  exact ⟨h.2.2.2.1, h.2.2.2.2⟩
